import Mathlib

/-!
Shallow embedding of the AI tax-analysis routes of the `ai2-ai-modules`
repository: the `/analyze-transaction` and `/batch-analyze` endpoints and
their helper functions.

The repository holds two variants of the route file.  The optimized
variant (compact `d:/c:/r:/b:` reply grammar, `gpt-4o-mini`, clamping
parser) is embedded in the namespace `TaxRoutes4`; the older variant
(long `deductible:/confidence:/...` grammar, `gpt-3.5-turbo`) is embedded
in `TaxRoutes5`, restricted to the functions that differ and matter here.

JavaScript primitives (string splitting, `trim`, `toLowerCase`,
`parseFloat`, `parseInt`, falsiness) are modelled once in the `JsModel`
namespace, as structurally recursive functions over character lists so
that every definition evaluates inside the kernel.  JavaScript numbers
are modelled as exact rationals built with `Rat.divInt`; `none : Option ℚ`
models `NaN` where a parse can fail.  The external LLM transport is an
`Option String` oracle: `none` stands for a thrown transport error or a
null reply body, `some s` for a reply with content `s`.
-/

namespace JsModel

/-- Numeric value of a list of decimal digit characters, read left to
right. -/
def digitsToNat (ds : List Char) : Nat :=
  ds.foldl (fun n c => 10 * n + (c.toNat - '0'.toNat)) 0

/-- Decimal digits of a natural number, with structural fuel so that the
kernel can evaluate it; `natChars n` is the decimal rendering of `n`, as
JavaScript template interpolation produces. -/
def natCharsAux : Nat → Nat → List Char
  | 0, _ => []
  | fuel + 1, n =>
    if n < 10 then [Nat.digitChar n]
    else natCharsAux fuel (n / 10) ++ [Nat.digitChar (n % 10)]

/-- Decimal rendering of a natural number. -/
def natChars (n : Nat) : List Char :=
  natCharsAux (n + 1) n

/-- JavaScript `trim` on a character list: whitespace stripped from both
ends. -/
def trimChars (cs : List Char) : List Char :=
  ((cs.dropWhile Char.isWhitespace).reverse.dropWhile Char.isWhitespace).reverse

/-- JavaScript `String.prototype.trim`. -/
def jsTrim (s : String) : String :=
  String.mk (trimChars s.data)

/-- JavaScript `String.prototype.toLowerCase` (ASCII, which is all the
parsers compare against). -/
def jsLower (s : String) : String :=
  String.mk (s.data.map Char.toLower)

/-- Splitting a character list at every occurrence of a separator
character, keeping empty pieces, as JavaScript `split` does with a
one-character separator. -/
def splitCharAux (sep : Char) (acc : List Char) : List Char → List (List Char)
  | [] => [acc.reverse]
  | c :: rest =>
    if c = sep then acc.reverse :: splitCharAux sep [] rest
    else splitCharAux sep (c :: acc) rest

/-- JavaScript `s.split(sep)` for a one-character separator, which is the
only form the routes use (`'\n'`, `'|'`, `':'`, `','`). -/
def splitChar (sep : Char) (s : String) : List String :=
  (splitCharAux sep [] s.data).map String.mk

/-- The characters strictly after the first occurrence of `sep`, or
`none` when `sep` does not occur (JavaScript `indexOf` returning `-1`). -/
def breakAt (sep : Char) : List Char → Option (List Char)
  | [] => none
  | c :: rest => if c = sep then some rest else breakAt sep rest

/-- JavaScript `s.substring(s.indexOf(sep) + 1)`: everything after the
first `sep`, and the whole string when `sep` is absent (`indexOf` is `-1`
and `substring(0)` is the identity). -/
def subAfterFirst (sep : Char) (s : String) : String :=
  match breakAt sep s.data with
  | none => s
  | some rest => String.mk rest

/-- Substring test, modelling JavaScript `String.prototype.includes`. -/
def containsAux (pat : List Char) : List Char → Bool
  | [] => pat.isEmpty
  | c :: rest => List.isPrefixOf pat (c :: rest) || containsAux pat rest

/-- JavaScript `s.includes(pat)`. -/
def containsSub (s pat : String) : Bool :=
  containsAux pat.data s.data

/-- Model of JavaScript `parseFloat`: skip leading whitespace, read an
optional sign, then a decimal digit string with an optional fractional
part; `none` models `NaN` (no digit at all).  Exponent suffixes are not
modelled; no reply grammar in the source produces them. -/
def parseFloatQ (s : String) : Option ℚ :=
  let cs := s.data.dropWhile Char.isWhitespace
  let sc : ℤ × List Char :=
    match cs with
    | '-' :: t => (-1, t)
    | '+' :: t => (1, t)
    | _ => (1, cs)
  let ip := sc.2.takeWhile Char.isDigit
  let rest := sc.2.dropWhile Char.isDigit
  let fp :=
    match rest with
    | '.' :: t => t.takeWhile Char.isDigit
    | _ => []
  if ip.isEmpty && fp.isEmpty then none
  else
    some (Rat.divInt
      (sc.1 * ((digitsToNat ip * 10 ^ fp.length + digitsToNat fp : ℕ) : ℤ))
      (((10 ^ fp.length : ℕ) : ℤ)))

/-- Model of JavaScript `parseInt` with no radix argument on decimal
input: skip leading whitespace, read an optional sign, then the longest
digit prefix; `none` models `NaN`. -/
def parseIntZ (s : String) : Option ℤ :=
  let cs := s.data.dropWhile Char.isWhitespace
  let sc : ℤ × List Char :=
    match cs with
    | '-' :: t => (-1, t)
    | '+' :: t => (1, t)
    | _ => (1, cs)
  let ds := sc.2.takeWhile Char.isDigit
  if ds.isEmpty then none else some (sc.1 * ((digitsToNat ds : ℕ) : ℤ))

/-- JavaScript `x || d` over a number that may be `NaN` (modelled as
`none`): both `NaN` and `0` are falsy and give the default. -/
def numOrDefault (x : Option ℚ) (d : ℚ) : ℚ :=
  match x with
  | none => d
  | some v => if v = 0 then d else v

/-- JavaScript `x || d` over an integer that may be `NaN`. -/
def intOrDefault (x : Option ℤ) (d : ℤ) : ℤ :=
  match x with
  | none => d
  | some v => if v = 0 then d else v

/-- JavaScript `v?.toLowerCase() === t` for a possibly-undefined `v`. -/
def optLowerEq (v : Option String) (t : String) : Bool :=
  match v with
  | none => false
  | some s => jsLower s = t

/-- JavaScript `v || d` over a possibly-undefined string: `undefined`
and the empty string are falsy. -/
def strOrDefault (v : Option String) (d : String) : String :=
  match v with
  | none => d
  | some s => if s = "" then d else s

/-- JavaScript splitting of a comma-separated value into trimmed pieces,
with the empty list for a falsy value. -/
def csvOf (v : Option String) : List String :=
  match v with
  | none => []
  | some s => if s = "" then [] else (splitChar ',' s).map jsTrim

/-- Falsiness of a possibly-undefined string: `undefined` and the empty
string. -/
def falsyStr : Option String → Bool
  | none => true
  | some s => s = ""

/-- Falsiness of a possibly-undefined number: `undefined` and `0`. -/
def falsyNum : Option ℚ → Bool
  | none => true
  | some q => q = 0

/-- Split a reply into its non-blank lines, modelling
`analysis.split('\n').filter(line => line.trim().length > 0)`. -/
def nonBlankLines (s : String) : List String :=
  (splitChar '\n' s).filter (fun l => !(trimChars l.data).isEmpty)

end JsModel

namespace TaxRoutes4

open JsModel

/-- An incoming transaction record as destructured by the routes:
`{ id, description, amount, date, category, type }`; `category` and
`type` may be absent from a request body. -/
structure Transaction where
  id : String
  description : String
  amount : ℚ
  date : String
  category : Option String
  txType : Option String
deriving DecidableEq, Repr

/-- The user profile destructured by the routes; only used to shape the
prompt, never the result. -/
structure UserProfile where
  countryCode : Option String
  businessType : Option String
  occupation : Option String
  aiPsychology : Option String
deriving DecidableEq, Repr

/-- The structured tax-analysis result produced by the parsers. -/
structure TaxResult where
  isTaxDeductible : Bool
  confidence : ℚ
  reasoning : String
  businessUsePercentage : ℤ
  taxCategory : String
  documentationRequired : List String
  warnings : List String
  suggestions : List String
  relatedRules : List String
deriving DecidableEq, Repr

/-- Clamp a confidence into `[0, 1]`, modelling
`Math.max(0, Math.min(1, x))`. -/
def clamp01 (q : ℚ) : ℚ := max 0 (min 1 q)

/-- Clamp a business-use percentage into `[0, 100]`, modelling
`Math.max(0, Math.min(100, x))`. -/
def clamp100 (n : ℤ) : ℤ := max 0 (min 100 n)

/-- The accumulator that `parseOptimizedTaxLine` starts from: the
conservative defaults `deductible=false`, `confidence=0.5`,
`businessUse=0`. -/
def baseOptResult : TaxResult where
  isTaxDeductible := false
  confidence := Rat.divInt 1 2
  reasoning := "AI analysis completed"
  businessUsePercentage := 0
  taxCategory := "Personal"
  documentationRequired := []
  warnings := []
  suggestions := []
  relatedRules := []

/-- Key and value of one `|`-separated segment: the segment is trimmed
and split at its first colon, the key is trimmed and lower-cased, the
value is everything after the first colon, trimmed.  `none` models the
`continue` taken when the segment has no colon. -/
def segKeyVal (part : String) : Option (String × String) :=
  let t := jsTrim part
  match breakAt ':' t.data with
  | none => none
  | some rest =>
    some (jsLower (jsTrim (String.mk (t.data.takeWhile (fun c => c != ':')))),
      jsTrim (String.mk rest))

/-- Just the key of a segment, when the segment has one. -/
def segKey (part : String) : Option String :=
  (segKeyVal part).map Prod.fst

/-- One step of the `switch` in `parseOptimizedTaxLine`: apply a single
segment to the accumulated result.  Unknown keys fall through and leave
the result unchanged. -/
def applyOptSeg (s : TaxResult) (part : String) : TaxResult :=
  match segKeyVal part with
  | none => s
  | some (k, v) =>
    if k = "d" ∨ k = "deductible" then
      { s with isTaxDeductible := (v = "1") || (jsLower v = "true") }
    else if k = "c" ∨ k = "confidence" then
      { s with confidence :=
          match parseFloatQ v with
          | none => Rat.divInt 1 2
          | some q => clamp01 q }
    else if k = "r" ∨ k = "reasoning" then
      { s with reasoning := if v = "" then "AI analysis completed" else v }
    else if k = "b" ∨ k = "business_use" then
      { s with businessUsePercentage :=
          match parseIntZ v with
          | none => 0
          | some n => clamp100 n }
    else s

/-- `parseOptimizedTaxLine` of the optimized route file: split the
payload on `|` and fold the segments over the conservative defaults. -/
def parseOptimizedTaxLine (content : String) : TaxResult :=
  (splitChar '|' content).foldl applyOptSeg baseOptResult

/-- `getDefaultSingleResult`: the FALLBACK result emitted when no reply
line can be attributed to a transaction. -/
def getDefaultSingleResult : TaxResult where
  isTaxDeductible := false
  confidence := Rat.divInt 3 10
  reasoning := "Could not parse AI response - manual review required"
  businessUsePercentage := 0
  taxCategory := "Personal"
  documentationRequired := []
  warnings := []
  suggestions := []
  relatedRules := []

/-- The string `"{n}:"` interpolated in front of each reply line. -/
def numColon (n : Nat) : String :=
  String.mk (natChars n ++ [':'])

/-- The third, regex-based matching tier
`line.match` against the pattern whitespace-index-whitespace-colon:
optional leading
whitespace, the decimal index, optional whitespace, then a colon. -/
def regexLineMatch (n : Nat) (l : String) : Bool :=
  let cs := l.data.dropWhile Char.isWhitespace
  if List.isPrefixOf (natChars n) cs then
    match (cs.drop (natChars n).length).dropWhile Char.isWhitespace with
    | ':' :: _ => true
    | _ => false
  else false

/-- Attribution of a reply line to transaction number `n`: first a line
whose prefix is exactly `"{n}:"`, failing that the first line containing
`"{n}:"` anywhere, failing that the first line matching the regex tier. -/
def findLineFor (lines : List String) (n : Nat) : Option String :=
  match lines.find? (fun l => List.isPrefixOf (numColon n).data l.data) with
  | some l => some l
  | none =>
    match lines.find? (fun l => containsSub l (numColon n)) with
    | some l => some l
    | none => lines.find? (fun l => regexLineMatch n l)

/-- The payload handed to `parseOptimizedTaxLine` once a line is found:
`line.substring(line.indexOf(':') + 1).trim()`. -/
def contentOf (l : String) : String :=
  jsTrim (subAfterFirst ':' l)

/-- `parseBatchTaxAnalysisResponseOptimized`: for the i-th transaction
(1-indexed as `i+1`), attribute a reply line and parse it, or emit the
FALLBACK default when no line is found.  Total by construction, as the
enclosing `try/catch` in the source demands. -/
def parseBatchTaxAnalysisResponseOptimized (analysis : String)
    (txs : List Transaction) : List TaxResult :=
  let lines := nonBlankLines analysis
  (List.range txs.length).map fun i =>
    match findLineFor lines (i + 1) with
    | some l => parseOptimizedTaxLine (contentOf l)
    | none => getDefaultSingleResult

/-- The per-transaction result produced by the `catch` of
`callOpenAIBatch` when the external call throws or returns no content. -/
def aiFailedResult : TaxResult where
  isTaxDeductible := false
  confidence := 0
  reasoning := "AI analysis failed - requires manual review"
  businessUsePercentage := 0
  taxCategory := "Personal"
  documentationRequired := []
  warnings := []
  suggestions := []
  relatedRules := []

/-- `callOpenAIBatch`: one external call for the whole batch.  `reply`
is the transport oracle: `none` for a thrown error, `some ""` for empty
content (which the source turns into a throw caught by the same
`catch`), `some s` for a reply parsed by the batch parser. -/
def callOpenAIBatch (txs : List Transaction) (_profile : UserProfile)
    (reply : Option String) : List TaxResult :=
  match reply with
  | none => txs.map fun _ => aiFailedResult
  | some analysis =>
    if analysis = "" then txs.map fun _ => aiFailedResult
    else parseBatchTaxAnalysisResponseOptimized analysis txs

/-- The `max_tokens` budget of the optimized batch call:
`Math.min(800, transactions.length * 40)`. -/
def maxTokensBatch (txs : List Transaction) : Nat :=
  min 800 (40 * txs.length)

/-- `checkTaxCache` as it stands in the source: an unimplemented stub
that always reports a cache miss (`return null`). -/
def checkTaxCache (_tx : Transaction) (_profile : UserProfile) :
    Option TaxResult :=
  none

/-- A result object pushed into the route reply: the original
transaction fields, the source tag, and the analysis fields spread in. -/
structure RouteItem where
  id : String
  description : String
  amount : ℚ
  date : String
  category : Option String
  txType : Option String
  source : String
  res : TaxResult
deriving DecidableEq, Repr

/-- The record pushed for a cache hit, with source tag `cache`. -/
def mkCacheItem (tx : Transaction) (r : TaxResult) : RouteItem where
  id := tx.id
  description := tx.description
  amount := tx.amount
  date := tx.date
  category := tx.category
  txType := tx.txType
  source := "cache"
  res := r

/-- The record pushed for an AI-phase result: source tag `ai` when the
result exists with confidence above `0.3`, `uncategorised` otherwise. -/
def mkAiItem (tx : Transaction) (r : TaxResult) : RouteItem where
  id := tx.id
  description := tx.description
  amount := tx.amount
  date := tx.date
  category := tx.category
  txType := tx.txType
  source := if Rat.divInt 3 10 < r.confidence then "ai" else "uncategorised"
  res := r

/-- Phase 1 of `processTaxBatch`: walk the transactions in order, push a
`cache` record for each hit and collect the misses, preserving the
relative order of both. -/
def phase1 (profile : UserProfile) :
    List Transaction → List RouteItem × List Transaction
  | [] => ([], [])
  | tx :: rest =>
    let r := phase1 profile rest
    match checkTaxCache tx profile with
    | some cr => (mkCacheItem tx cr :: r.1, r.2)
    | none => (r.1, tx :: r.2)

/-- What a run of `processTaxBatch` produces: the reply items, plus the
list of `(transaction, result)` pairs passed to `saveTaxCache` (which is
itself an unimplemented no-op stub in the source). -/
structure BatchOutcome where
  items : List RouteItem
  saves : List (Transaction × TaxResult)
deriving DecidableEq, Repr

/-- `processTaxBatch`: Phase 1 cache scan, then a single batch AI call
for the misses; each AI result is saved to cache when its confidence
exceeds `0.3` and pushed with its source tag.  Cache-hit records come
first, then AI records, as the two push loops run in that order. -/
def processTaxBatch (txs : List Transaction) (profile : UserProfile)
    (reply : Option String) : BatchOutcome :=
  let p := phase1 profile txs
  if p.2.isEmpty then { items := p.1, saves := [] }
  else
    let aiResults := callOpenAIBatch p.2 profile reply
    { items := p.1 ++ List.zipWith mkAiItem p.2 aiResults
      saves := (p.2.zip aiResults).filter
        (fun pr => decide (Rat.divInt 3 10 < pr.2.confidence)) }

/-- The batch size constant of the `/batch-analyze` route. -/
def BATCH_SIZE : Nat := 10

/-- Chunking a list into consecutive pieces of at most `b` elements,
modelling the `for (let i = 0; i < n; i += BATCH_SIZE)` slicing loop.
`acc` is the current piece reversed, `n` the free room left in it. -/
def chunkGo (b : Nat) : List α → Nat → List α → List (List α)
  | acc, _, [] => if acc.isEmpty then [] else [acc.reverse]
  | acc, n, x :: xs =>
    if n ≤ 1 then (x :: acc).reverse :: chunkGo b [] b xs
    else chunkGo b (x :: acc) (n - 1) xs

/-- `l` cut into consecutive chunks of at most `b` elements. -/
def chunkList (b : Nat) (l : List α) : List (List α) :=
  chunkGo b [] b l

/-- The batches the route slices a request into. -/
def chunkBatches (txs : List Transaction) : List (List Transaction) :=
  chunkList BATCH_SIZE txs

/-- The `/batch-analyze` route loop: process each chunk with
`processTaxBatch` (the chunk numbered `k` sees the transport outcome
`replies k`) and concatenate the per-chunk results in order. -/
def batchAnalyze (txs : List Transaction) (profile : UserProfile)
    (replies : Nat → Option String) : List RouteItem :=
  ((chunkBatches txs).enum.map
    (fun p => (processTaxBatch p.2 profile (replies p.1)).items)).flatten

/-- Observable scheduling events of the route loop: dispatching one
batch, or awaiting the pacing delay (in milliseconds). -/
inductive BatchEvent where
  | dispatch (batch : List Transaction)
  | delay (ms : Nat)
deriving DecidableEq, Repr

/-- Whether an event is a pacing delay. -/
def isDelay : BatchEvent → Bool
  | .delay _ => true
  | .dispatch _ => false

/-- Event trace of the chunked loop: dispatch each batch, awaiting the
1000 ms pacing delay exactly when another batch remains
(`if (i + BATCH_SIZE < transactions.length)`). -/
def traceOf : List (List Transaction) → List BatchEvent
  | [] => []
  | [c] => [.dispatch c]
  | c :: c2 :: rest => .dispatch c :: .delay 1000 :: traceOf (c2 :: rest)

/-- The `/batch-analyze` scheduling trace for a request. -/
def routeTrace (txs : List Transaction) : List BatchEvent :=
  traceOf (chunkBatches txs)

/-- True when the trace does not end with a pacing delay. -/
def lastNotDelay : List BatchEvent → Bool
  | [] => true
  | [e] => !isDelay e
  | _ :: e2 :: rest => lastNotDelay (e2 :: rest)

/-- The conservative default that `parseTaxAnalysisResponse` returns for
an empty or blank reply. -/
def defaultConservativeResult : TaxResult where
  isTaxDeductible := false
  confidence := Rat.divInt 1 2
  reasoning := "Conservative analysis - requires manual review"
  businessUsePercentage := 0
  taxCategory := "Personal"
  documentationRequired := ["Receipt", "Business purpose documentation"]
  warnings := ["Manual review recommended"]
  suggestions := ["Consult with tax professional"]
  relatedRules := []

/-- The mutable locals of `parseTaxAnalysisResponse` before its loop:
`confidence = 0.5`, an empty reasoning, `taxCategory = Personal`, the
rest empty or zero. -/
def respInit : TaxResult where
  isTaxDeductible := false
  confidence := Rat.divInt 1 2
  reasoning := ""
  businessUsePercentage := 0
  taxCategory := "Personal"
  documentationRequired := []
  warnings := []
  suggestions := []
  relatedRules := []

/-- One line of the long-grammar response:
`const [key, value] = line.split(':').map(s => s.trim())` destructures
only the first two pieces, so `value` is the piece between the first and
second colon and may be `undefined`. -/
def applyRespLine (s : TaxResult) (line : String) : TaxResult :=
  let ps := (splitChar ':' line).map jsTrim
  let key := jsLower (ps.headD "")
  let value : Option String := ps[1]?
  if key = "deductible" then
    { s with isTaxDeductible := optLowerEq value "true" || optLowerEq value "yes" }
  else if key = "confidence" then
    { s with confidence := numOrDefault (value.bind parseFloatQ) (Rat.divInt 1 2) }
  else if key = "reasoning" then
    { s with reasoning := strOrDefault value "AI analysis completed" }
  else if key = "business_use" then
    { s with businessUsePercentage := intOrDefault (value.bind parseIntZ) 0 }
  else if key = "category" then
    { s with taxCategory := strOrDefault value "Personal" }
  else if key = "docs" then
    { s with documentationRequired := csvOf value }
  else if key = "warnings" then
    { s with warnings := csvOf value }
  else if key = "suggestions" then
    { s with suggestions := csvOf value }
  else if key = "rules" then
    { s with relatedRules := csvOf value }
  else s

/-- `parseTaxAnalysisResponse` of the single-transaction endpoint: blank
replies give the conservative default; otherwise the non-blank lines are
folded over the initial locals and the numeric fields are clamped on the
way out, with a fallback reasoning string. -/
def parseTaxAnalysisResponse (analysis : String) (_description : String)
    (_amount : ℚ) : TaxResult :=
  if (trimChars analysis.data).isEmpty then defaultConservativeResult
  else
    let acc := (nonBlankLines analysis).foldl applyRespLine respInit
    { acc with
      confidence := clamp01 acc.confidence
      businessUsePercentage := clamp100 acc.businessUsePercentage
      reasoning := if acc.reasoning = "" then "AI tax analysis completed" else acc.reasoning }

/-- The body destructured by the `/analyze-transaction` route:
`{ description, amount, date, category, userProfile, type }`, each field
possibly absent. -/
structure AnalyzeReq where
  description : Option String
  amount : Option ℚ
  date : Option String
  category : Option String
  userProfile : Option UserProfile
  txType : Option String
deriving DecidableEq, Repr

/-- The three reply shapes of the single-transaction endpoint: the 400
validation rejection, the 500 catch-all, and the 200 analysis (whose
echo of the request fields is elided here). -/
inductive SingleResp where
  | badRequest (error : String)
  | serverError (error : String)
  | ok (result : TaxResult)
deriving DecidableEq, Repr

/-- The `/analyze-transaction` handler: the truthiness guard
`if (!description || !amount)` rejects before any external call; past
it, the OpenAI call is issued (second component `true`), a missing or
empty reply throws into the 500 catch, and otherwise the reply is parsed.
The second component records whether the external classifier call was
issued. -/
def analyzeTransaction (req : AnalyzeReq) (reply : Option String) :
    SingleResp × Bool :=
  if falsyStr req.description || falsyNum req.amount then
    (.badRequest "Description and amount are required", false)
  else
    match reply with
    | none => (.serverError "Tax analysis failed", true)
    | some analysis =>
      if analysis = "" then (.serverError "Tax analysis failed", true)
      else
        (.ok (parseTaxAnalysisResponse analysis (req.description.getD "")
          (req.amount.getD 0)), true)

end TaxRoutes4

namespace TaxRoutes5

open JsModel TaxRoutes4

/-- One `|`-segment of the older variant of `parseSingleTaxLine`:
`const [key, value] = part.split(':').map(s => s.trim())`, then a switch
over the long keys only.  Note: this variant applies no clamping to
`confidence` or `business_use`. -/
def applyP5Seg (s : TaxResult) (part : String) : TaxResult :=
  let ps := (splitChar ':' part).map jsTrim
  let key := jsLower (ps.headD "")
  let value : Option String := ps[1]?
  if key = "deductible" then
    { s with isTaxDeductible := optLowerEq value "true" }
  else if key = "confidence" then
    { s with confidence := numOrDefault (value.bind parseFloatQ) (Rat.divInt 1 2) }
  else if key = "reasoning" then
    { s with reasoning := strOrDefault value "AI analysis completed" }
  else if key = "business_use" then
    { s with businessUsePercentage := intOrDefault (value.bind parseIntZ) 0 }
  else s

/-- `parseSingleTaxLine` of the older route file (`part.split(':')` long
grammar, no clamping). -/
def parseSingleTaxLine (content : String) : TaxResult :=
  (splitChar '|' content).foldl applyP5Seg baseOptResult

/-- The `max_tokens` budget of the older batch call:
`Math.min(512, transactions.length * 50)`. -/
def maxTokensBatch (txs : List Transaction) : Nat :=
  min 512 (50 * txs.length)

end TaxRoutes5

namespace SpecModel

open JsModel TaxRoutes4

/-- Modelled from the spec: the looser second matching tier as the spec
words it — the index `n` appearing at a token boundary (start of line,
or right after a non-alphanumeric character) immediately followed by a
colon.  Stated for comparison with the matching the code performs. -/
def specTokenMatchAux (pat : List Char) : Option Char → List Char → Bool
  | _, [] => false
  | prev, c :: rest =>
    ((match prev with
      | none => true
      | some p => !p.isAlphanum) && List.isPrefixOf pat (c :: rest))
    || specTokenMatchAux pat (some c) rest

/-- Modelled from the spec: token-boundary attribution of a reply line
to index `n`. -/
def specTokenMatch (l : String) (n : Nat) : Bool :=
  specTokenMatchAux (natChars n ++ [':']) none l.data

/-- Modelled from the spec: slicing a request into batches under the
claimed default bound of 50 items, for comparison with the slicing the
route performs. -/
def specChunks50 (txs : List Transaction) : List (List Transaction) :=
  chunkList 50 txs

end SpecModel

namespace TaxRoutes4

/-- The transaction fields echoed into every result record, used to state
order preservation. -/
def txKey (tx : Transaction) :
    String × String × ℚ × String × Option String × Option String :=
  (tx.id, tx.description, tx.amount, tx.date, tx.category, tx.txType)

/-- The echoed fields of a result record. -/
def itemKey (it : RouteItem) :
    String × String × ℚ × String × Option String × Option String :=
  (it.id, it.description, it.amount, it.date, it.category, it.txType)

/-- A concrete transaction used for witnesses and counterexamples. -/
def txA : Transaction :=
  { id := "t1", description := "UBER RIDE", amount := -25,
    date := "2024-01-01", category := none, txType := none }

/-- A second concrete transaction. -/
def txB : Transaction :=
  { id := "t2", description := "WILSON PARKING MONTHLY", amount := -180,
    date := "2024-01-02", category := none, txType := none }

/-- A third concrete transaction. -/
def txC : Transaction :=
  { id := "t3", description := "COFFEE", amount := -4,
    date := "2024-01-03", category := none, txType := none }

/-- An empty user profile. -/
def profA : UserProfile :=
  { countryCode := none, businessType := none, occupation := none,
    aiPsychology := none }

/-- A batch of three transactions. -/
def txs3 : List Transaction := [txA, txB, txC]

/-- A reply for a batch of three in which only the line of entry 2 is
malformed (no attributable line for index 2). -/
def replyMalformed2 : String :=
  "1: d:1|c:0.9|r:ok|b:100\nblah\n3: d:0|c:0.8|r:no|b:0"

/-- Eleven identical transactions, exceeding one route batch. -/
def txs11 : List Transaction := List.replicate 11 txA

/-- A single-transaction request whose amount is the number 0. -/
def reqZero : AnalyzeReq :=
  { description := some "Coffee", amount := some 0, date := none,
    category := none, userProfile := none, txType := none }

end TaxRoutes4


namespace TaxRoutes4

open JsModel

theorem phase1_stub (profile : UserProfile) (txs : List Transaction) :
    phase1 profile txs = ([], txs) := by
  induction txs with
  | nil => rfl
  | cons t ts ih => simp [phase1, checkTaxCache, ih]

theorem parseBatch_length (analysis : String) (txs : List Transaction) :
    (parseBatchTaxAnalysisResponseOptimized analysis txs).length = txs.length := by
  simp [parseBatchTaxAnalysisResponseOptimized]

theorem callOpenAIBatch_length (txs : List Transaction) (profile : UserProfile)
    (reply : Option String) :
    (callOpenAIBatch txs profile reply).length = txs.length := by
  cases reply with
  | none => simp [callOpenAIBatch]
  | some a =>
    by_cases h : a = "" <;> simp [callOpenAIBatch, h, parseBatch_length]

theorem zipWith_mkAiItem_key :
    ∀ (txs : List Transaction) (rs : List TaxResult), rs.length = txs.length →
      (List.zipWith mkAiItem txs rs).map itemKey = txs.map txKey := by
  intro txs
  induction txs with
  | nil => intro rs _; simp
  | cons t ts ih =>
    intro rs h
    cases rs with
    | nil => simp at h
    | cons r rst =>
      simp only [List.length_cons, Nat.succ.injEq] at h
      simp [List.zipWith_cons_cons, ih rst h, itemKey, txKey, mkAiItem]

theorem processTaxBatch_items_eq (txs : List Transaction)
    (profile : UserProfile) (reply : Option String) :
    (processTaxBatch txs profile reply).items
      = List.zipWith mkAiItem txs (callOpenAIBatch txs profile reply) := by
  cases txs with
  | nil => rfl
  | cons t ts =>
    unfold processTaxBatch
    rw [phase1_stub]
    rfl

theorem processTaxBatch_saves_eq (txs : List Transaction)
    (profile : UserProfile) (reply : Option String) :
    (processTaxBatch txs profile reply).saves
      = (txs.zip (callOpenAIBatch txs profile reply)).filter
          (fun pr => decide (Rat.divInt 3 10 < pr.2.confidence)) := by
  cases txs with
  | nil => rfl
  | cons t ts =>
    unfold processTaxBatch
    rw [phase1_stub]
    rfl

theorem processTaxBatch_items_key (txs : List Transaction)
    (profile : UserProfile) (reply : Option String) :
    (processTaxBatch txs profile reply).items.map itemKey = txs.map txKey := by
  rw [processTaxBatch_items_eq]
  exact zipWith_mkAiItem_key _ _ (callOpenAIBatch_length _ _ _)

theorem chunkGo_flatten {α : Type} (b : Nat) (hb : 1 ≤ b) :
    ∀ (l acc : List α) (n : Nat), 1 ≤ n →
      (chunkGo b acc n l).flatten = acc.reverse ++ l := by
  intro l
  induction l with
  | nil =>
    intro acc n _
    by_cases h : acc.isEmpty
    · simp_all [chunkGo, List.isEmpty_iff]
    · simp_all [chunkGo]
  | cons x xs ih =>
    intro acc n hn
    by_cases h : n ≤ 1
    · simp [chunkGo, h, ih [] b hb]
    · have h2 : 1 ≤ n - 1 := by omega
      simp [chunkGo, h, ih (x :: acc) (n - 1) h2]

theorem chunkList_flatten {α : Type} (b : Nat) (hb : 1 ≤ b) (l : List α) :
    (chunkList b l).flatten = l := by
  simpa using chunkGo_flatten b hb l [] b hb

theorem chunkBatches_flatten (txs : List Transaction) :
    (chunkBatches txs).flatten = txs :=
  chunkList_flatten 10 (by norm_num) txs

theorem chunkGo_length_le {α : Type} (b : Nat) :
    ∀ (l acc : List α) (n : Nat), 1 ≤ n → acc.length + n = b →
      ∀ c ∈ chunkGo b acc n l, c.length ≤ b := by
  intro l
  induction l with
  | nil =>
    intro acc n hn hsum c hc
    by_cases h : acc.isEmpty
    · simp_all [chunkGo]
    · simp_all [chunkGo]
      omega
  | cons x xs ih =>
    intro acc n hn hsum c hc
    by_cases h : n ≤ 1
    · simp only [chunkGo, if_pos h, List.mem_cons] at hc
      rcases hc with hc | hc
      · subst hc
        simp only [List.length_reverse, List.length_cons]
        omega
      · exact ih [] b (by omega) (by simp) c hc
    · simp only [chunkGo, if_neg h] at hc
      exact ih (x :: acc) (n - 1) (by omega) (by simp; omega) c hc

theorem chunkBatches_length_le (txs : List Transaction) :
    ∀ c ∈ chunkBatches txs, c.length ≤ 10 :=
  chunkGo_length_le 10 txs [] 10 (by norm_num) (by simp [BATCH_SIZE])

theorem enumFrom_map_snd_apply {α β : Type} (f : α → β) :
    ∀ (l : List α) (n : Nat), (l.enumFrom n).map (fun p => f p.2) = l.map f := by
  intro l
  induction l with
  | nil => intro n; rfl
  | cons x xs ih => intro n; simp [List.enumFrom, ih]

theorem enum_map_snd_apply {α β : Type} (f : α → β) (l : List α) :
    l.enum.map (fun p => f p.2) = l.map f :=
  enumFrom_map_snd_apply f l 0

/-- Claim C1: for every input list of N transactions, the batch pipeline
of the `/batch-analyze` route returns exactly N result records, and the
records carry the original transaction fields in the original order,
whatever the transport outcome of each per-batch call. -/
theorem batchAnalyze_completeness (txs : List Transaction)
    (profile : UserProfile) (replies : Nat → Option String) :
    (batchAnalyze txs profile replies).length = txs.length ∧
      (batchAnalyze txs profile replies).map itemKey = txs.map txKey := by
  have hmap : (batchAnalyze txs profile replies).map itemKey = txs.map txKey := by
    unfold batchAnalyze
    rw [List.map_flatten, List.map_map]
    have h1 : (chunkBatches txs).enum.map
        (List.map itemKey ∘ fun p => (processTaxBatch p.2 profile (replies p.1)).items)
        = (chunkBatches txs).enum.map (fun p => p.2.map txKey) := by
      apply List.map_congr_left
      intro p _
      exact processTaxBatch_items_key _ _ _
    rw [h1, enum_map_snd_apply, ← List.map_flatten, chunkBatches_flatten]
  refine ⟨?_, hmap⟩
  have hlen := congrArg List.length hmap
  simpa using hlen

theorem traceOf_eq_intersperse (cs : List (List Transaction)) :
    traceOf cs = List.intersperse (BatchEvent.delay 1000) (cs.map .dispatch) := by
  induction cs with
  | nil => rfl
  | cons c rest ih =>
    cases rest with
    | nil => rfl
    | cons c2 rest2 =>
      simp only [traceOf, List.map_cons]
      rw [List.intersperse_cons_cons]
      simp only [List.map_cons] at ih
      rw [← ih]

theorem traceOf_countP (cs : List (List Transaction)) :
    (traceOf cs).countP isDelay = cs.length - 1 := by
  induction cs with
  | nil => rfl
  | cons c rest ih =>
    cases rest with
    | nil => rfl
    | cons c2 rest2 =>
      have h : traceOf (c :: c2 :: rest2)
          = .dispatch c :: .delay 1000 :: traceOf (c2 :: rest2) := rfl
      rw [h, List.countP_cons, List.countP_cons, ih]
      norm_num [isDelay, List.length_cons]

theorem traceOf_lastNotDelay (cs : List (List Transaction)) :
    lastNotDelay (traceOf cs) = true := by
  induction cs with
  | nil => rfl
  | cons c rest ih =>
    cases rest with
    | nil => rfl
    | cons c2 rest2 =>
      have hne : ∃ e t, traceOf (c2 :: rest2) = e :: t := by
        cases rest2 <;> exact ⟨_, _, rfl⟩
      obtain ⟨e, t, he⟩ := hne
      simp only [traceOf, lastNotDelay, he] at ih ⊢
      exact ih

theorem mem_zipWith_aiFailed :
    ∀ (txs : List Transaction) (it : RouteItem),
      it ∈ List.zipWith mkAiItem txs (txs.map fun _ => aiFailedResult) →
      ∃ tx, it = mkAiItem tx aiFailedResult := by
  intro txs
  induction txs with
  | nil => intro it hit; simp at hit
  | cons t ts ih =>
    intro it hit
    simp only [List.map_cons, List.zipWith_cons_cons, List.mem_cons] at hit
    rcases hit with h | h
    · exact ⟨t, h⟩
    · exact ih it h

/-- Claim C2 (counterexample): on a transport failure the claimed
confidence 0.3 is wrong — the single transaction of the failed batch
comes back with confidence 0.0. -/
theorem transport_failure_confidence_counterexample :
    ¬ (∀ it ∈ (processTaxBatch [txA] profA none).items,
        it.res.confidence = (0.3 : ℚ)) := by
  intro hall
  have hmem : mkAiItem txA aiFailedResult ∈ (processTaxBatch [txA] profA none).items := by
    rw [show (processTaxBatch [txA] profA none).items
        = [mkAiItem txA aiFailedResult] from rfl]
    exact List.mem_singleton_self _
  have h := hall _ hmem
  have h0 : (mkAiItem txA aiFailedResult).res.confidence = 0 := rfl
  rw [h0] at h
  norm_num at h

/-- Claim C2 (amended): when the external batch call throws or yields no
content, every transaction of that batch comes back tagged
`uncategorised` (the fallback tag) with the failed-analysis result:
confidence 0.0 — not 0.3 — and isTaxDeductible false; the batch function
still returns a record for each transaction. -/
theorem transport_failure_degrades (txs : List Transaction)
    (profile : UserProfile) :
    ∀ it ∈ (processTaxBatch txs profile none).items,
      it.source = "uncategorised" ∧ it.res = aiFailedResult ∧
      it.res.confidence = 0 ∧ it.res.isTaxDeductible = false := by
  intro it hit
  rw [processTaxBatch_items_eq] at hit
  have hcall : callOpenAIBatch txs profile none
      = txs.map fun _ => aiFailedResult := rfl
  rw [hcall] at hit
  obtain ⟨tx, rfl⟩ := mem_zipWith_aiFailed txs it hit
  exact ⟨rfl, rfl, rfl, rfl⟩

/-- Claim C2 (witness): the amended statement applied to a concrete
one-transaction batch with a failed transport. -/
theorem transport_failure_degrades_witness :
    (mkAiItem txA aiFailedResult).source = "uncategorised" ∧
    (mkAiItem txA aiFailedResult).res = aiFailedResult ∧
    (mkAiItem txA aiFailedResult).res.confidence = 0 ∧
    (mkAiItem txA aiFailedResult).res.isTaxDeductible = false :=
  transport_failure_degrades [txA] profA (mkAiItem txA aiFailedResult)
    (by
      rw [show (processTaxBatch [txA] profA none).items
          = [mkAiItem txA aiFailedResult] from rfl]
      exact List.mem_singleton_self _)

/-- Claim C3: the batch decoder always returns one result per
transaction; an entry whose index has no attributable reply line gets
the FALLBACK default (confidence 0.3, not deductible) while an entry
with an attributed line is decoded from that line alone, so one
malformed line never disturbs the other entries. -/
theorem parseBatch_per_entry_isolation (analysis : String)
    (txs : List Transaction) (i : ℕ) (h : i < txs.length) :
    (parseBatchTaxAnalysisResponseOptimized analysis txs).length = txs.length ∧
    (findLineFor (nonBlankLines analysis) (i + 1) = none →
      (parseBatchTaxAnalysisResponseOptimized analysis txs)[i]?
        = some getDefaultSingleResult) ∧
    (∀ l, findLineFor (nonBlankLines analysis) (i + 1) = some l →
      (parseBatchTaxAnalysisResponseOptimized analysis txs)[i]?
        = some (parseOptimizedTaxLine (contentOf l))) ∧
    getDefaultSingleResult.confidence = 0.3 ∧
    getDefaultSingleResult.isTaxDeductible = false := by
  have key : (parseBatchTaxAnalysisResponseOptimized analysis txs)[i]?
      = some (match findLineFor (nonBlankLines analysis) (i + 1) with
        | some l => parseOptimizedTaxLine (contentOf l)
        | none => getDefaultSingleResult) := by
    unfold parseBatchTaxAnalysisResponseOptimized
    rw [List.getElem?_map, List.getElem?_range h]
    rfl
  refine ⟨parseBatch_length analysis txs, ?_, ?_, ?_, rfl⟩
  · intro hnone
    rw [key, hnone]
  · intro l hl
    rw [key, hl]
  · show Rat.divInt 3 10 = (0.3 : ℚ)
    rw [Rat.divInt_eq_div]
    norm_num

/-- Claim C3 (witness): a batch of three whose reply has a good line for
entries 1 and 3 and nothing attributable to entry 2 — entry 2 falls back
to the default and entry 1 decodes from its own line. -/
theorem parseBatch_per_entry_isolation_witness :
    (1 < txs3.length) ∧
    ((parseBatchTaxAnalysisResponseOptimized replyMalformed2 txs3)[1]?
      = some getDefaultSingleResult) ∧
    ((parseBatchTaxAnalysisResponseOptimized replyMalformed2 txs3)[0]?
      = some (parseOptimizedTaxLine (contentOf "1: d:1|c:0.9|r:ok|b:100"))) :=
  ⟨by decide,
    (parseBatch_per_entry_isolation replyMalformed2 txs3 1 (by decide)).2.1 rfl,
    (parseBatch_per_entry_isolation replyMalformed2 txs3 0 (by decide)).2.2.1
      "1: d:1|c:0.9|r:ok|b:100" rfl⟩

/-- Claim C5 (counterexample): a run where the AI produced an admissible
confidence-0.8 result and the pipeline attempted the cache save — yet a
later lookup with the very same transaction and profile still returns
nothing, because `checkTaxCache` is an unimplemented always-miss stub. -/
theorem cache_retrieval_counterexample :
    (processTaxBatch [txA] profA (some "1: d:1|c:0.8|r:ok|b:100")).saves.map
        (fun pr => pr.2.confidence) = [Rat.divInt 8 10] ∧
    (0.3 : ℚ) ≤ Rat.divInt 8 10 ∧
    checkTaxCache txA profA = none := by
  refine ⟨rfl, ?_, rfl⟩
  rw [Rat.divInt_eq_div]
  norm_num

/-- Claim C5 (amended): the cache-admission gate is strict — only
results with confidence strictly above 0.3 are ever handed to
`saveTaxCache` (so nothing below 0.3 is written) — but nothing is
retrievable afterwards: both cache functions are unimplemented stubs and
`checkTaxCache` always misses. -/
theorem cache_admission_amended :
    (∀ (txs : List Transaction) (profile : UserProfile) (reply : Option String),
      ∀ pr ∈ (processTaxBatch txs profile reply).saves,
        (0.3 : ℚ) < pr.2.confidence) ∧
    (∀ (tx : Transaction) (profile : UserProfile),
      checkTaxCache tx profile = none) := by
  constructor
  · intro txs profile reply pr hpr
    rw [processTaxBatch_saves_eq] at hpr
    have h := List.of_mem_filter hpr
    have h2 : Rat.divInt 3 10 < pr.2.confidence := of_decide_eq_true h
    have h3 : (0.3 : ℚ) = Rat.divInt 3 10 := by
      rw [Rat.divInt_eq_div]; norm_num
    rw [h3]
    exact h2
  · intro tx profile
    rfl

/-- Claim C5 (witness): the admission bound applied to the concrete
save performed in the counterexample run. -/
theorem cache_admission_amended_witness :
    (0.3 : ℚ)
      < ((txA, parseOptimizedTaxLine "d:1|c:0.8|r:ok|b:100")).2.confidence :=
  cache_admission_amended.1 [txA] profA (some "1: d:1|c:0.8|r:ok|b:100") _
    (by
      rw [show (processTaxBatch [txA] profA (some "1: d:1|c:0.8|r:ok|b:100")).saves
          = [(txA, parseOptimizedTaxLine "d:1|c:0.8|r:ok|b:100")] from rfl]
      exact List.mem_singleton_self _)

/-- Claim C10: a request whose amount is the number 0 is rejected by the
truthiness guard (`!description || !amount`) with the validation error,
and the external classifier is never invoked. -/
theorem zero_amount_rejected (req : AnalyzeReq) (reply : Option String)
    (h : req.amount = some 0) :
    analyzeTransaction req reply
      = (SingleResp.badRequest "Description and amount are required", false) := by
  unfold analyzeTransaction
  have h2 : falsyNum req.amount = true := by rw [h]; rfl
  simp [h2]

/-- Claim C10 (witness): a concrete well-described request with amount 0
is rejected without any classifier call. -/
theorem zero_amount_rejected_witness :
    reqZero.amount = some 0 ∧
    analyzeTransaction reqZero none
      = (SingleResp.badRequest "Description and amount are required", false) :=
  ⟨rfl, zero_amount_rejected reqZero none rfl⟩

theorem clamp01_nonneg (q : ℚ) : 0 ≤ clamp01 q := le_max_left 0 _

theorem clamp01_le_one (q : ℚ) : clamp01 q ≤ 1 :=
  max_le (by norm_num) (min_le_left 1 q)

theorem clamp100_nonneg (n : ℤ) : 0 ≤ clamp100 n := le_max_left 0 _

theorem clamp100_le (n : ℤ) : clamp100 n ≤ 100 :=
  max_le (by norm_num) (min_le_left 100 n)

theorem applyOptSeg_confidence_cases (s : TaxResult) (seg : String) :
    (applyOptSeg s seg).confidence = s.confidence ∨
    (applyOptSeg s seg).confidence = Rat.divInt 1 2 ∨
    ∃ q, (applyOptSeg s seg).confidence = clamp01 q := by
  unfold applyOptSeg
  cases hkv : segKeyVal seg with
  | none => left; rfl
  | some kv =>
    obtain ⟨k, v⟩ := kv
    dsimp only
    split_ifs
    all_goals try (left; rfl)
    cases hp : parseFloatQ v with
    | none => right; left; simp only [hp]
    | some q => right; right; exact ⟨q, by simp only [hp]⟩

theorem applyOptSeg_businessUse_cases (s : TaxResult) (seg : String) :
    (applyOptSeg s seg).businessUsePercentage = s.businessUsePercentage ∨
    (applyOptSeg s seg).businessUsePercentage = 0 ∨
    ∃ n, (applyOptSeg s seg).businessUsePercentage = clamp100 n := by
  unfold applyOptSeg
  cases hkv : segKeyVal seg with
  | none => left; rfl
  | some kv =>
    obtain ⟨k, v⟩ := kv
    dsimp only
    split_ifs
    all_goals try (left; rfl)
    cases hp : parseIntZ v with
    | none => right; left; simp only [hp]
    | some n => right; right; exact ⟨n, by simp only [hp]⟩

theorem foldl_confidence_bounds :
    ∀ (segs : List String) (s : TaxResult), 0 ≤ s.confidence → s.confidence ≤ 1 →
      0 ≤ (segs.foldl applyOptSeg s).confidence ∧
        (segs.foldl applyOptSeg s).confidence ≤ 1 := by
  intro segs
  induction segs with
  | nil => intro s h1 h2; exact ⟨h1, h2⟩
  | cons seg rest ih =>
    intro s h1 h2
    refine ih (applyOptSeg s seg) ?_ ?_ <;>
      rcases applyOptSeg_confidence_cases s seg with h | h | ⟨q, h⟩ <;> rw [h] <;>
      first
        | exact h1
        | exact h2
        | exact clamp01_nonneg _
        | exact clamp01_le_one _
        | (rw [Rat.divInt_eq_div]; norm_num)

theorem foldl_businessUse_bounds :
    ∀ (segs : List String) (s : TaxResult),
      0 ≤ s.businessUsePercentage → s.businessUsePercentage ≤ 100 →
      0 ≤ (segs.foldl applyOptSeg s).businessUsePercentage ∧
        (segs.foldl applyOptSeg s).businessUsePercentage ≤ 100 := by
  intro segs
  induction segs with
  | nil => intro s h1 h2; exact ⟨h1, h2⟩
  | cons seg rest ih =>
    intro s h1 h2
    refine ih (applyOptSeg s seg) ?_ ?_ <;>
      rcases applyOptSeg_businessUse_cases s seg with h | h | ⟨n, h⟩ <;> rw [h] <;>
      first
        | exact h1
        | exact h2
        | exact clamp100_nonneg _
        | exact clamp100_le _
        | norm_num

/-- Claim C4 (counterexample): the older variant of the line decoder
(`parseSingleTaxLine` of the second route file) does not behave as the
claim states on the very input the claim names — it knows only the long
keys, so `c:1.7|b:150` leaves the defaults 0.5 and 0 in place instead of
yielding 1.0 and 100. -/
theorem clamping_counterexample :
    ¬ ((TaxRoutes5.parseSingleTaxLine "c:1.7|b:150").confidence = 1 ∧
       (TaxRoutes5.parseSingleTaxLine "c:1.7|b:150").businessUsePercentage = 100) := by
  intro hc
  have e : (TaxRoutes5.parseSingleTaxLine "c:1.7|b:150").confidence
      = Rat.divInt 1 2 := rfl
  rw [e, Rat.divInt_eq_div] at hc
  have := hc.1
  norm_num at this

/-- Claim C4 (amended): the optimized decoder `parseOptimizedTaxLine`
clamps as claimed — every decoded line has confidence in `[0,1]` and
business use in `[0,100]`, and the named inputs clamp to 1.0/100 and
0.0/0 — but the older `parseSingleTaxLine` ignores the short keys and
applies no clamping at all: in its own grammar, `confidence:1.7` and
`business_use:150` come through as 1.7 and 150. -/
theorem clamping_amended :
    (∀ content : String,
      0 ≤ (parseOptimizedTaxLine content).confidence ∧
      (parseOptimizedTaxLine content).confidence ≤ 1 ∧
      0 ≤ (parseOptimizedTaxLine content).businessUsePercentage ∧
      (parseOptimizedTaxLine content).businessUsePercentage ≤ 100) ∧
    (parseOptimizedTaxLine "c:1.7|b:150").confidence = 1 ∧
    (parseOptimizedTaxLine "c:1.7|b:150").businessUsePercentage = 100 ∧
    (parseOptimizedTaxLine "c:-0.2|b:-5").confidence = 0 ∧
    (parseOptimizedTaxLine "c:-0.2|b:-5").businessUsePercentage = 0 ∧
    (TaxRoutes5.parseSingleTaxLine "confidence:1.7|business_use:150").confidence
      = 1.7 ∧
    (TaxRoutes5.parseSingleTaxLine "confidence:1.7|business_use:150").businessUsePercentage
      = 150 := by
  refine ⟨?_, rfl, rfl, rfl, rfl, ?_, rfl⟩
  · intro content
    have hc := foldl_confidence_bounds (splitChar '|' content) baseOptResult
      (by rw [show baseOptResult.confidence = Rat.divInt 1 2 from rfl,
        Rat.divInt_eq_div]; norm_num)
      (by rw [show baseOptResult.confidence = Rat.divInt 1 2 from rfl,
        Rat.divInt_eq_div]; norm_num)
    have hb := foldl_businessUse_bounds (splitChar '|' content) baseOptResult
      (by norm_num [baseOptResult]) (by norm_num [baseOptResult])
    exact ⟨hc.1, hc.2, hb.1, hb.2⟩
  · show Rat.divInt 17 10 = (1.7 : ℚ)
    rw [Rat.divInt_eq_div]
    norm_num

theorem applyOptSeg_unknown (s : TaxResult) (seg : String)
    (h : segKey seg ∉ [some "d", some "deductible", some "c", some "confidence",
      some "r", some "reasoning", some "b", some "business_use"]) :
    applyOptSeg s seg = s := by
  unfold applyOptSeg
  cases hkv : segKeyVal seg with
  | none => rfl
  | some kv =>
    obtain ⟨k, v⟩ := kv
    dsimp only
    have hk : segKey seg = some k := by simp [segKey, hkv]
    rw [hk] at h
    simp only [List.mem_cons, List.not_mem_nil, or_false,
      Option.some.injEq] at h
    push_neg at h
    obtain ⟨n1, n2, n3, n4, n5, n6, n7, n8⟩ := h
    rw [if_neg (not_or.mpr ⟨n1, n2⟩), if_neg (not_or.mpr ⟨n3, n4⟩),
      if_neg (not_or.mpr ⟨n5, n6⟩), if_neg (not_or.mpr ⟨n7, n8⟩)]

theorem applyOptSeg_ded_eq (s : TaxResult) (seg : String)
    (h : segKey seg ∉ [some "d", some "deductible"]) :
    (applyOptSeg s seg).isTaxDeductible = s.isTaxDeductible := by
  unfold applyOptSeg
  cases hkv : segKeyVal seg with
  | none => rfl
  | some kv =>
    obtain ⟨k, v⟩ := kv
    dsimp only
    have hk : segKey seg = some k := by simp [segKey, hkv]
    rw [hk] at h
    simp only [List.mem_cons, List.not_mem_nil, or_false,
      Option.some.injEq] at h
    push_neg at h
    rw [if_neg (not_or.mpr h)]
    split_ifs <;> rfl

theorem applyOptSeg_conf_eq (s : TaxResult) (seg : String)
    (h : segKey seg ∉ [some "c", some "confidence"]) :
    (applyOptSeg s seg).confidence = s.confidence := by
  unfold applyOptSeg
  cases hkv : segKeyVal seg with
  | none => rfl
  | some kv =>
    obtain ⟨k, v⟩ := kv
    dsimp only
    have hk : segKey seg = some k := by simp [segKey, hkv]
    rw [hk] at h
    simp only [List.mem_cons, List.not_mem_nil, or_false,
      Option.some.injEq] at h
    push_neg at h
    split_ifs
    all_goals try rfl
    all_goals tauto

theorem applyOptSeg_bu_eq (s : TaxResult) (seg : String)
    (h : segKey seg ∉ [some "b", some "business_use"]) :
    (applyOptSeg s seg).businessUsePercentage = s.businessUsePercentage := by
  unfold applyOptSeg
  cases hkv : segKeyVal seg with
  | none => rfl
  | some kv =>
    obtain ⟨k, v⟩ := kv
    dsimp only
    have hk : segKey seg = some k := by simp [segKey, hkv]
    rw [hk] at h
    simp only [List.mem_cons, List.not_mem_nil, or_false,
      Option.some.injEq] at h
    push_neg at h
    split_ifs
    all_goals try rfl
    all_goals tauto

theorem foldl_ded_eq :
    ∀ (segs : List String) (s : TaxResult),
      (∀ seg ∈ segs, segKey seg ∉ [some "d", some "deductible"]) →
      (segs.foldl applyOptSeg s).isTaxDeductible = s.isTaxDeductible := by
  intro segs
  induction segs with
  | nil => intro s _; rfl
  | cons seg rest ih =>
    intro s h
    have h1 := h seg (List.mem_cons_self seg rest)
    have h2 : ∀ x ∈ rest, segKey x ∉ [some "d", some "deductible"] :=
      fun x hx => h x (List.mem_cons_of_mem seg hx)
    calc (List.foldl applyOptSeg s (seg :: rest)).isTaxDeductible
        = (List.foldl applyOptSeg (applyOptSeg s seg) rest).isTaxDeductible := rfl
      _ = (applyOptSeg s seg).isTaxDeductible := ih (applyOptSeg s seg) h2
      _ = s.isTaxDeductible := applyOptSeg_ded_eq s seg h1

theorem foldl_conf_eq :
    ∀ (segs : List String) (s : TaxResult),
      (∀ seg ∈ segs, segKey seg ∉ [some "c", some "confidence"]) →
      (segs.foldl applyOptSeg s).confidence = s.confidence := by
  intro segs
  induction segs with
  | nil => intro s _; rfl
  | cons seg rest ih =>
    intro s h
    have h1 := h seg (List.mem_cons_self seg rest)
    have h2 : ∀ x ∈ rest, segKey x ∉ [some "c", some "confidence"] :=
      fun x hx => h x (List.mem_cons_of_mem seg hx)
    calc (List.foldl applyOptSeg s (seg :: rest)).confidence
        = (List.foldl applyOptSeg (applyOptSeg s seg) rest).confidence := rfl
      _ = (applyOptSeg s seg).confidence := ih (applyOptSeg s seg) h2
      _ = s.confidence := applyOptSeg_conf_eq s seg h1

theorem foldl_bu_eq :
    ∀ (segs : List String) (s : TaxResult),
      (∀ seg ∈ segs, segKey seg ∉ [some "b", some "business_use"]) →
      (segs.foldl applyOptSeg s).businessUsePercentage = s.businessUsePercentage := by
  intro segs
  induction segs with
  | nil => intro s _; rfl
  | cons seg rest ih =>
    intro s h
    have h1 := h seg (List.mem_cons_self seg rest)
    have h2 : ∀ x ∈ rest, segKey x ∉ [some "b", some "business_use"] :=
      fun x hx => h x (List.mem_cons_of_mem seg hx)
    calc (List.foldl applyOptSeg s (seg :: rest)).businessUsePercentage
        = (List.foldl applyOptSeg (applyOptSeg s seg) rest).businessUsePercentage := rfl
      _ = (applyOptSeg s seg).businessUsePercentage := ih (applyOptSeg s seg) h2
      _ = s.businessUsePercentage := applyOptSeg_bu_eq s seg h1

/-- Claim C6: the optimized decoder splits the payload on `|` and each
segment at its first `:`; a segment with an unrecognized key leaves the
result untouched, and when no segment carries a key for a field the
conservative default survives: deductible false, confidence 0.5,
business use 0. -/
theorem decoder_segments_defaults (content : String) :
    parseOptimizedTaxLine content
      = (splitChar '|' content).foldl applyOptSeg baseOptResult ∧
    (∀ (s : TaxResult) (seg : String),
      segKey seg ∉ [some "d", some "deductible", some "c", some "confidence",
        some "r", some "reasoning", some "b", some "business_use"] →
      applyOptSeg s seg = s) ∧
    ((∀ seg ∈ splitChar '|' content, segKey seg ∉ [some "d", some "deductible"]) →
      (parseOptimizedTaxLine content).isTaxDeductible = false) ∧
    ((∀ seg ∈ splitChar '|' content, segKey seg ∉ [some "c", some "confidence"]) →
      (parseOptimizedTaxLine content).confidence = 0.5) ∧
    ((∀ seg ∈ splitChar '|' content, segKey seg ∉ [some "b", some "business_use"]) →
      (parseOptimizedTaxLine content).businessUsePercentage = 0) := by
  refine ⟨rfl, applyOptSeg_unknown, ?_, ?_, ?_⟩
  · intro h
    exact foldl_ded_eq _ _ h
  · intro h
    have e := foldl_conf_eq (splitChar '|' content) baseOptResult h
    rw [show parseOptimizedTaxLine content
        = (splitChar '|' content).foldl applyOptSeg baseOptResult from rfl, e]
    show Rat.divInt 1 2 = (0.5 : ℚ)
    rw [Rat.divInt_eq_div]
    norm_num
  · intro h
    exact foldl_bu_eq _ _ h

/-- Claim C6 (witness): a payload with a reasoning key, an unknown key
and no deductible, confidence or business-use key keeps all three
defaults. -/
theorem decoder_segments_defaults_witness :
    (parseOptimizedTaxLine "r:hi|z:9").isTaxDeductible = false ∧
    (parseOptimizedTaxLine "r:hi|z:9").confidence = 0.5 ∧
    (parseOptimizedTaxLine "r:hi|z:9").businessUsePercentage = 0 ∧
    applyOptSeg baseOptResult "z:9" = baseOptResult :=
  ⟨(decoder_segments_defaults "r:hi|z:9").2.2.1 (by decide),
    (decoder_segments_defaults "r:hi|z:9").2.2.2.1 (by decide),
    (decoder_segments_defaults "r:hi|z:9").2.2.2.2 (by decide),
    (decoder_segments_defaults "r:hi|z:9").2.1 baseOptResult "z:9" (by decide)⟩

/-- Claim C7 (counterexample): the middle matching tier is a plain
substring search, not a token-boundary match — with no line for index 2,
the line `x12: ...` is attributed to transaction 2 even though `2` only
occurs inside the token `12`, so neither of the two claimed rules holds
for the attributed line. -/
theorem line_match_counterexample :
    findLineFor ["x12: d:0|c:0.9"] 2 = some "x12: d:0|c:0.9" ∧
    List.isPrefixOf (numColon 2).data "x12: d:0|c:0.9".data = false ∧
    SpecModel.specTokenMatch "x12: d:0|c:0.9" 2 = false :=
  ⟨rfl, rfl, rfl⟩

/-- Claim C7 (amended): attribution tries three tiers in order — exact
prefix `"i:"`, then any substring occurrence of `"i:"` (not restricted
to token boundaries), then the whitespace-tolerant regex `^\s*i\s*:` —
and a line is attributed only when it satisfies one of these three; the
exact-prefix tier always wins when some line satisfies it. -/
theorem line_match_amended (lines : List String) (n : ℕ) (l : String)
    (h : findLineFor lines n = some l) :
    l ∈ lines ∧
    (List.isPrefixOf (numColon n).data l.data = true ∨
      containsSub l (numColon n) = true ∨ regexLineMatch n l = true) ∧
    ((∃ l0 ∈ lines, List.isPrefixOf (numColon n).data l0.data = true) →
      List.isPrefixOf (numColon n).data l.data = true) := by
  unfold findLineFor at h
  cases h1 : lines.find? (fun x => List.isPrefixOf (numColon n).data x.data) with
  | some l1 =>
    rw [h1] at h
    simp only [Option.some.injEq] at h
    subst h
    have t1 : List.isPrefixOf (numColon n).data l1.data = true := by
      have t := List.find?_some h1
      exact t
    exact ⟨List.mem_of_find?_eq_some h1, Or.inl t1, fun _ => t1⟩
  | none =>
    rw [h1] at h
    have hpre : ∀ l0 ∈ lines,
        ¬ (List.isPrefixOf (numColon n).data l0.data = true) :=
      fun l0 hl0 => by simpa using List.find?_eq_none.mp h1 l0 hl0
    have hnopre : (∃ l0 ∈ lines,
        List.isPrefixOf (numColon n).data l0.data = true) →
        List.isPrefixOf (numColon n).data l.data = true := by
      rintro ⟨l0, hl0, hp⟩
      exact absurd hp (hpre l0 hl0)
    cases h2 : lines.find? (fun x => containsSub x (numColon n)) with
    | some l2 =>
      rw [h2] at h
      simp only [Option.some.injEq] at h
      subst h
      have t2 : containsSub l2 (numColon n) = true := by
        have t := List.find?_some h2
        exact t
      exact ⟨List.mem_of_find?_eq_some h2, Or.inr (Or.inl t2), hnopre⟩
    | none =>
      rw [h2] at h
      have t3 : regexLineMatch n l = true := by
        have t := List.find?_some h
        exact t
      exact ⟨List.mem_of_find?_eq_some h, Or.inr (Or.inr t3), hnopre⟩

/-- Claim C7 (witness): the amended attribution rules on a well-formed
reply line. -/
theorem line_match_amended_witness :
    ("1: d:1" ∈ ["1: d:1"]) ∧
    (List.isPrefixOf (numColon 1).data "1: d:1".data = true ∨
      containsSub "1: d:1" (numColon 1) = true ∨
      regexLineMatch 1 "1: d:1" = true) ∧
    ((∃ l0 ∈ ["1: d:1"], List.isPrefixOf (numColon 1).data l0.data = true) →
      List.isPrefixOf (numColon 1).data "1: d:1".data = true) :=
  line_match_amended ["1: d:1"] 1 "1: d:1" rfl

/-- Claim C8 (counterexample): the batch bound of the route is 10, not
50 — eleven transactions are sliced into two external calls of sizes 10
and 1, where the claimed default bound of 50 would make a single call. -/
theorem batch_bound_counterexample :
    (chunkBatches txs11).map List.length = [10, 1] ∧
    SpecModel.specChunks50 txs11 = [txs11] :=
  ⟨rfl, rfl⟩

/-- Claim C8 (amended): each external call covers exactly one batch of
at most 10 transactions (hence also at most 50), the batches partition
the request in order, and the token budget of a call is
`min(800, 40 × batchSize)` in the optimized variant and
`min(512, 50 × batchSize)` in the older one. -/
theorem batch_bound_amended (txs : List Transaction) :
    (∀ c ∈ chunkBatches txs, c.length ≤ 10 ∧ c.length ≤ 50 ∧
      maxTokensBatch c = min 800 (40 * c.length) ∧
      TaxRoutes5.maxTokensBatch c = min 512 (50 * c.length)) ∧
    (chunkBatches txs).flatten = txs := by
  refine ⟨fun c hc => ⟨chunkBatches_length_le txs c hc,
    le_trans (chunkBatches_length_le txs c hc) (by norm_num), rfl, rfl⟩,
    chunkBatches_flatten txs⟩

/-- Claim C8 (witness): the amended bound applied to the first batch of
the eleven-transaction request. -/
theorem batch_bound_amended_witness :
    (List.replicate 10 txA).length ≤ 10 ∧
    (List.replicate 10 txA).length ≤ 50 ∧
    maxTokensBatch (List.replicate 10 txA)
      = min 800 (40 * (List.replicate 10 txA).length) ∧
    TaxRoutes5.maxTokensBatch (List.replicate 10 txA)
      = min 512 (50 * (List.replicate 10 txA).length) :=
  (batch_bound_amended txs11).1 (List.replicate 10 txA)
    (by
      rw [show chunkBatches txs11
          = [List.replicate 10 txA, [txA]] from rfl]
      exact List.mem_cons_self _ _)

/-- Claim C9: the `/batch-analyze` loop awaits a 1000 ms pacing delay
exactly between consecutive batch dispatches — its trace is the batch
dispatches interspersed with single 1000 ms delays, the number of delays
is one less than the number of batches, and the trace never ends with a
delay. -/
theorem pacing_delay_trace (txs : List Transaction) :
    routeTrace txs
      = List.intersperse (BatchEvent.delay 1000) ((chunkBatches txs).map .dispatch) ∧
    (routeTrace txs).countP isDelay = (chunkBatches txs).length - 1 ∧
    lastNotDelay (routeTrace txs) = true :=
  ⟨traceOf_eq_intersperse _, traceOf_countP _, traceOf_lastNotDelay _⟩

end TaxRoutes4
